import Mathlib

set_option maxRecDepth 10000

/-!
Shallow embedding of the generation/polling workflow and history/persistence
model of the browser app (src/App.tsx, src/components/InputArea.tsx,
src/components/LivePreview.tsx, src/components/CreationHistory.tsx and the
gemini service appended to it).

Conventions of the embedding:
* JS strings are Lean `String`s; JS string truthiness (`""` is falsy) is made
  explicit wherever the source relies on it.
* `Date` values are modelled by their epoch-milliseconds as `Nat`
  (JSON round-tripping a `Date` preserves the instant).
* Fields that are absent in a JS object are `Option.none`.
* Network calls and other external effects are oracles passed as parameters
  (e.g. the successive operation states returned by the poll calls).
* A thrown JS `Error` is modelled by its message (`Except String` results).
-/

/-- The `'app' | 'video'` union used both for `Creation.type` and for
`GenerationMode` in the source. -/
inductive CreationType where
  | app
  | video
deriving DecidableEq, Repr

abbrev GenerationMode := CreationType

/-- The `Creation` interface of src/components/CreationHistory.tsx.
`timestamp` is epoch milliseconds; `html`, `originalImage`, `videoUrl` are
the optional fields of the interface. -/
structure Creation where
  id : String
  name : String
  timestamp : Nat
  type : CreationType
  html : Option String := none
  originalImage : Option String := none
  videoUrl : Option String := none
deriving DecidableEq, Repr

/- ----------------------------------------------------------------
JSON serialization layer for persistence (App.tsx persist effect) and
export (LivePreview.tsx handleExport).  A serialized record is a list of
key/value fields; an `Option` field contributes no entry when `none`,
which models the JS object simply not having that key.
---------------------------------------------------------------- -/

inductive JsonField where
  | jstr (s : String)
  | jnum (n : Nat)
  | jtag (t : CreationType)
deriving DecidableEq, Repr

/-- An optional string field contributes a key/value pair only when present. -/
def optField (k : String) (v : Option String) : List (String × JsonField) :=
  match v with
  | some s => [(k, JsonField.jstr s)]
  | none => []

/-- JSON.stringify of a Creation record: every present field becomes a key. -/
def creationToJson (c : Creation) : List (String × JsonField) :=
  [("id", JsonField.jstr c.id),
   ("name", JsonField.jstr c.name),
   ("timestamp", JsonField.jnum c.timestamp),
   ("type", JsonField.jtag c.type)]
  ++ optField "html" c.html
  ++ optField "originalImage" c.originalImage
  ++ optField "videoUrl" c.videoUrl

/-- Serialization for durable storage, App.tsx lines 75-78:
`const { videoUrl, ...rest } = c; return rest;` — the `videoUrl` key is
removed before stringifying. -/
def persistedJson (c : Creation) : List (String × JsonField) :=
  creationToJson { c with videoUrl := none }

/-- Serialization for export, LivePreview.tsx handleExport:
`const { videoUrl, ...exportableCreation } = creation;`. -/
def exportedJson (c : Creation) : List (String × JsonField) :=
  creationToJson { c with videoUrl := none }

/-- First-match field lookup in a serialized record. -/
def jlookup : List (String × JsonField) → String → Option JsonField
  | [], _ => none
  | (k, v) :: rest, key => if k = key then some v else jlookup rest key

def jlookupStr (fs : List (String × JsonField)) (k : String) : Option String :=
  match jlookup fs k with
  | some (JsonField.jstr s) => some s
  | _ => none

def jlookupNum (fs : List (String × JsonField)) (k : String) : Option Nat :=
  match jlookup fs k with
  | some (JsonField.jnum n) => some n
  | _ => none

def jlookupTag (fs : List (String × JsonField)) (k : String) : Option CreationType :=
  match jlookup fs k with
  | some (JsonField.jtag t) => some t
  | _ => none

/-- Deserialization on load, App.tsx initHistory lines 43-46:
`{ ...item, timestamp: new Date(item.timestamp) }` — the spread keeps the
fields that are present (absent keys stay absent) and revives the Date. -/
def jsonToCreation (fs : List (String × JsonField)) : Creation :=
  { id := (jlookupStr fs "id").getD ""
    name := (jlookupStr fs "name").getD ""
    timestamp := (jlookupNum fs "timestamp").getD 0
    type := (jlookupTag fs "type").getD CreationType.app
    html := jlookupStr fs "html"
    originalImage := jlookupStr fs "originalImage"
    videoUrl := jlookupStr fs "videoUrl" }

/- ----------------------------------------------------------------
Gemini service (second part of src/components/CreationHistory.tsx):
bringToLife (app generation) and bringToLifeAsVideo (video generation
with the polling loop).
---------------------------------------------------------------- -/

/-- The whitespace class matched by the JS regex class `\s` (ASCII part;
the claims involve only ASCII whitespace). -/
def isJsWs (c : Char) : Bool :=
  c = ' ' || c = '\t' || c = '\n' || c = '\r' || c = '\x0b' || c = '\x0c'

/-- The replace `text.replace(/^```html\s*/, '')`: if the text starts with the literal
marker, remove it together with the following whitespace run. -/
def stripLeadingHtmlFence (s : String) : String :=
  if "```html".data <+: s.data then
    String.mk ((s.data.drop "```html".data.length).dropWhile isJsWs)
  else s

/-- The replace `text.replace(/^```\s*/, '')`. -/
def stripLeadingFence (s : String) : String :=
  if "```".data <+: s.data then
    String.mk ((s.data.drop "```".data.length).dropWhile isJsWs)
  else s

/-- The replace `text.replace(/```$/, '')`: drop a trailing triple-backtick. -/
def stripTrailingFence (s : String) : String :=
  if "```".data <:+ s.data then
    String.mk (s.data.take (s.data.length - "```".data.length))
  else s

/-- The post-processing chain applied to the raw response text in
bringToLife (line 201 of the service). -/
def stripFences (s : String) : String :=
  stripTrailingFence (stripLeadingFence (stripLeadingHtmlFence s))

/-- The placeholder used when `response.text` is falsy (line 200). -/
def failedPlaceholder : String := "<!-- Failed to generate content -->"

/-- bringToLife's handling of the response text:
`let text = response.text || "<!-- Failed to generate content -->";`
followed by the fence stripping; the function then returns `text`
normally (no throw on an empty response).  `none` models a missing
`response.text`, `some ""` an empty one (both falsy in JS). -/
def bringToLifeText (responseText : Option String) : String :=
  let text :=
    match responseText with
    | none => failedPlaceholder
    | some t => if t = "" then failedPlaceholder else t
  stripFences text

/-- One observed state of the long-running video operation:
`done`, `status?.state`, `status.error?.message`, and
`response?.generatedVideos?.[0]?.video?.uri`. -/
structure VideoOperation where
  done : Bool
  statusState : Option String := none
  statusErrorMessage : Option String := none
  downloadUri : Option String := none
deriving DecidableEq, Repr

/-- The fixed poll delay: `setTimeout(resolve, 10000)` (milliseconds). -/
def pollDelayMs : Nat := 10000

/-- The `while (!operation.done)` loop: each iteration awaits one
`pollDelayMs` delay and then re-fetches the operation.  `polls` is the
sequence of operation states returned by the successive
`getVideosOperation` calls; the result is the operation that exited the
loop together with the number of delays taken, or `none` when the
supplied sequence runs out before the operation is done (the unbounded
polling case). -/
def pollLoop : VideoOperation → List VideoOperation → Option (VideoOperation × Nat)
  | op, polls =>
    if op.done then some (op, 0)
    else
      match polls with
      | [] => none
      | next :: rest =>
        match pollLoop next rest with
        | none => none
        | some (f, n) => some (f, n + 1)

def noDownloadLinkMsg : String :=
  "Video generation succeeded, but no download link was found."

def entityNotFoundMsg : String := "Requested entity was not found."

def apiKeyNotFoundMsg : String :=
  "API key not found. Please re-select your API key and try again."

/-- JS `haystack.includes(needle)`. -/
def strIncludes (s pat : String) : Bool := decide (pat.data <:+: s.data)

/-- The catch block of bringToLifeAsVideo (lines 256-263): an error whose
message includes "Requested entity was not found." is re-thrown as the
credential-missing error; every other error is re-thrown unchanged. -/
def mapVideoError (msg : String) : String :=
  if strIncludes msg entityNotFoundMsg then apiKeyNotFoundMsg else msg

/-- Outcome of bringToLifeAsVideo: a successful return (carrying the
download URI whose fetched blob becomes the object URL) or a thrown
error message. -/
inductive VideoOutcome where
  | success (uri : String)
  | failure (msg : String)
deriving DecidableEq, Repr

/-- The checks after the poll loop exits (lines 238-254): job-level
failure first (the template renders a missing message as "undefined"),
then the download-link contract check, then the authenticated fetch of
the video (`fetchOk` = `videoRes.ok`, `fetchStatusText` =
`videoRes.statusText`). -/
def finishOp (op : VideoOperation) (fetchOk : Bool) (fetchStatusText : String) : VideoOutcome :=
  if op.statusState = some "FAILED" then
    VideoOutcome.failure ("Video generation failed: " ++ op.statusErrorMessage.getD "undefined")
  else
    match op.downloadUri with
    | none => VideoOutcome.failure noDownloadLinkMsg
    | some uri =>
      if fetchOk then VideoOutcome.success uri
      else VideoOutcome.failure ("Failed to download video file: " ++ fetchStatusText)

/-- The whole of bringToLifeAsVideo: submit (`submit` is the result of
`generateVideos`, an initial operation or a thrown transport error),
poll loop, post-loop checks, with every thrown error passing through the
catch block's mapping.  `none` models the loop never exiting. -/
def bringToLifeAsVideoFull (submit : Except String VideoOperation)
    (polls : List VideoOperation) (fetchOk : Bool) (fetchStatusText : String) :
    Option (VideoOutcome × Nat) :=
  match submit with
  | Except.error e => some (VideoOutcome.failure (mapVideoError e), 0)
  | Except.ok op =>
    match pollLoop op polls with
    | none => none
    | some (final, n) =>
      some
        (match finishOp final fetchOk fetchStatusText with
         | VideoOutcome.success u => VideoOutcome.success u
         | VideoOutcome.failure m => VideoOutcome.failure (mapVideoError m), n)

/- ----------------------------------------------------------------
Session controller (src/App.tsx): top-level state and the handlers
handleGenerate, handleRegenerateVideo, handleImportFile, initHistory.
---------------------------------------------------------------- -/

/-- A staged file: its name, base64 payload and MIME type (the result of
`fileToBase64` and `file.type`). -/
structure FileInput where
  fname : String
  base64 : String
  mime : String
deriving DecidableEq, Repr

/-- The top-level state owned by the App component. -/
structure AppState where
  activeCreation : Option Creation := none
  isGenerating : Bool := false
  generationMode : GenerationMode := CreationType.app
  history : List Creation := []
deriving DecidableEq, Repr

/-- The name derivation `file?.name || promptText.substring(0, 30) || 'New Creation'`
(JS truthiness: an empty string falls through). -/
def deriveName (file : Option FileInput) (promptText : String) : String :=
  let fallback := if promptText = "" then "New Creation" else String.mk (promptText.data.take 30)
  match file with
  | some f => if f.fname = "" then fallback else f.fname
  | none => fallback

/-- The data URI `imageBase64 && mimeType ? \x60data:${mimeType};base64,${imageBase64}\x60 : undefined`
with `mimeType = file.type.toLowerCase()`. -/
def deriveOriginalImage (file : Option FileInput) : Option String :=
  match file with
  | some f =>
    if f.base64 ≠ "" ∧ f.mime.toLower ≠ "" then
      some ("data:" ++ f.mime.toLower ++ ";base64," ++ f.base64)
    else none
  | none => none

/-- handleGenerate (App.tsx lines 98-149).  `outcome` is the result of the
awaited generation call (`bringToLife` or `bringToLifeAsVideo`): the
returned string or the thrown error message.  `freshId`/`now` stand for
`crypto.randomUUID()`/`new Date()`.  Returns the state holding while the
generation is awaited and the state after the handler finishes (the
`finally` clears `isGenerating` on every path; the catch alerts and
leaves the rest of the state unchanged; a falsy result string adds no
creation). -/
def handleGenerate (st : AppState) (promptText : String) (file : Option FileInput)
    (mode : GenerationMode) (outcome : Except String String)
    (freshId : String) (now : Nat) : AppState × AppState :=
  let during : AppState :=
    { st with isGenerating := true, generationMode := mode, activeCreation := none }
  let final : AppState :=
    match outcome with
    | Except.error _ => { during with isGenerating := false }
    | Except.ok result =>
      if result = "" then { during with isGenerating := false }
      else
        let c : Creation :=
          { id := freshId
            name := deriveName file promptText
            timestamp := now
            type := mode
            html := if mode = CreationType.app then some result else none
            originalImage := deriveOriginalImage file
            videoUrl := if mode = CreationType.video then some result else none }
        { during with
            isGenerating := false
            activeCreation := some c
            history := c :: during.history }
  (during, final)

/-- handleRegenerateVideo (App.tsx lines 151-198): like the video path of
handleGenerate but the active creation is not cleared while generating,
and the new creation reuses `originalCreation.originalImage` and takes
the new prompt as its name. -/
def handleRegenerateVideo (st : AppState) (newPrompt : String)
    (originalCreation : Creation) (outcome : Except String String)
    (freshId : String) (now : Nat) : AppState × AppState :=
  let during : AppState := { st with isGenerating := true, generationMode := CreationType.video }
  let final : AppState :=
    match outcome with
    | Except.error _ => { during with isGenerating := false }
    | Except.ok videoUrl =>
      if videoUrl = "" then { during with isGenerating := false }
      else
        let c : Creation :=
          { id := freshId
            name := newPrompt
            timestamp := now
            type := CreationType.video
            html := none
            originalImage := originalCreation.originalImage
            videoUrl := some videoUrl }
        { during with
            isGenerating := false
            activeCreation := some c
            history := c :: during.history }
  (during, final)

/-- JS truthiness of an optional string field. -/
def truthy : Option String → Bool
  | none => false
  | some s => decide (s ≠ "")

/-- An import payload as parsed from the selected JSON file.  `type` is
kept in the data model's variant type (a payload whose `type` is absent
is `none`). -/
structure ImportPayload where
  id : Option String := none
  name : Option String := none
  type : Option CreationType := none
  html : Option String := none
  videoUrl : Option String := none
  timestamp : Option Nat := none
  originalImage : Option String := none
deriving DecidableEq, Repr

/-- The validation `(parsed.html || parsed.videoUrl) && parsed.name && parsed.type`. -/
def importGuard (p : ImportPayload) : Bool :=
  (truthy p.html || truthy p.videoUrl) && truthy p.name && p.type.isSome

/-- The accepted record:
`{ ...parsed, timestamp: new Date(parsed.timestamp || Date.now()), id: parsed.id || crypto.randomUUID() }`
(JS truthiness: an empty `id` and a zero `timestamp` also fall through). -/
def importedCreation (p : ImportPayload) (freshId : String) (now : Nat) : Creation :=
  { id :=
      match p.id with
      | some i => if i = "" then freshId else i
      | none => freshId
    name := p.name.getD ""
    timestamp :=
      match p.timestamp with
      | some t => if t = 0 then now else t
      | none => now
    type := p.type.getD CreationType.app
    html := p.html
    originalImage := p.originalImage
    videoUrl := p.videoUrl }

/-- handleImportFile (App.tsx lines 217-247).  `parsed` is the result of
`JSON.parse` (`none` = parse threw).  The returned `Bool` is `true` when
the payload was accepted; on rejection or parse failure an alert is
shown and the state is returned unchanged.  An accepted payload is
prepended to the history unless its id already occurs there, and becomes
the active creation either way. -/
def handleImportFile (parsed : Option ImportPayload) (freshId : String) (now : Nat)
    (st : AppState) : AppState × Bool :=
  match parsed with
  | none => (st, false)
  | some p =>
    if importGuard p then
      let imported := importedCreation p freshId now
      let newHistory :=
        if st.history.any (fun c => decide (c.id = imported.id)) then st.history
        else imported :: st.history
      ({ st with history := newHistory, activeCreation := some imported }, true)
    else (st, false)

/-- JS `prompt.trim()`: remove leading and trailing whitespace. -/
def jsTrim (s : String) : String :=
  String.mk (((s.data.dropWhile isJsWs).reverse.dropWhile isJsWs).reverse)

/-- handleGenerateClick (src/components/InputArea.tsx lines 95-110).
Returns the arguments passed to `onGenerate` (which is what triggers the
network path), or `none` when the click is a no-op or rejected with an
alert before any call is made. -/
def handleGenerateClick (isGenerating disabled : Bool) (mode : GenerationMode)
    (prompt : String) (stagedFile : Option FileInput) :
    Option (String × Option FileInput × GenerationMode) :=
  if isGenerating || disabled then none
  else if decide (mode = CreationType.app) && stagedFile.isNone then none
  else if decide (mode = CreationType.video) && decide (jsTrim prompt = "") && stagedFile.isNone then none
  else some (prompt, stagedFile, mode)

/-- The three fixed example URLs of the remote bootstrap (App.tsx
lines 54-58). -/
def exampleUrls : List String :=
  ["https://storage.googleapis.com/sideprojects-asronline/bringanythingtolife/vibecode-blog.json",
   "https://storage.googleapis.com/sideprojects-asronline/bringanythingtolife/cassette.json",
   "https://storage.googleapis.com/sideprojects-asronline/bringanythingtolife/chess.json"]

/-- Result of one example fetch: the promise rejected (network error or
`res.json()` threw), the response was received but not ok (mapped to
`null`), or a parsed example (with the id/timestamp defaults already
applied). -/
inductive FetchResult where
  | rejected
  | notOk
  | ok (c : Creation)
deriving DecidableEq, Repr

def fetchRejected : FetchResult → Bool
  | FetchResult.rejected => true
  | _ => false

def fetchValue : FetchResult → Option Creation
  | FetchResult.ok c => some c
  | _ => none

/-- initHistory (App.tsx lines 35-70).  `saved` models
`localStorage.getItem` + `JSON.parse`: `none` = no stored item,
`some (Except.error ())` = parse threw (caught and logged),
`some (Except.ok l)` = parsed history.  When the loaded history is empty
the example fetches run under `Promise.all` inside a try/catch: one
rejected fetch rejects the whole `Promise.all`, the catch fires, and the
history stays empty; otherwise the non-ok (`null`) entries are filtered
out. -/
def initHistory (saved : Option (Except Unit (List Creation)))
    (fetches : List FetchResult) : List Creation :=
  let loadedHistory : List Creation :=
    match saved with
    | some (Except.ok l) => l
    | _ => []
  if loadedHistory.length > 0 then loadedHistory
  else if fetches.any fetchRejected then []
  else fetches.filterMap fetchValue

/- ----------------------------------------------------------------
Theorems settling the claims.
---------------------------------------------------------------- -/

/-- Concrete operation states used in the polling scenario: a pending
(not-done) status and a failed status carrying the error message
"quota". -/
def pendingOp : VideoOperation := { done := false }

def failedQuotaOp : VideoOperation :=
  { done := true, statusState := some "FAILED", statusErrorMessage := some "quota" }

/-- C8: for the poller run whose successive job statuses are
[pending, pending, failed(msg="quota")] (the initial operation plus two
poll results), bringToLifeAsVideo ends in a thrown failure carrying the
job's error message "quota", after exactly two delays, each of the fixed
10-second (10000 ms) length. -/
theorem c8_poll_failure_scenario :
    bringToLifeAsVideoFull (Except.ok pendingOp) [pendingOp, failedQuotaOp] true "" =
      some (VideoOutcome.failure "Video generation failed: quota", 2) ∧
    strIncludes "Video generation failed: quota" "quota" = true ∧
    pollDelayMs = 10000 := by
  decide

/-- C10: when the app-generation response has no text (missing or empty
`response.text`), bringToLife substitutes the literal placeholder
document and returns it as an ordinary successful result (the function
only re-throws transport errors; an empty response does not throw). -/
theorem c10_empty_response_placeholder :
    bringToLifeText none = failedPlaceholder ∧
    bringToLifeText (some "") = failedPlaceholder ∧
    failedPlaceholder = "<!-- Failed to generate content -->" := by
  decide

/-- C4: an error whose message includes "Requested entity was not found."
is re-thrown by bringToLifeAsVideo as the distinguished
credential-missing error asking the user to re-select the API key, and
every other error message propagates unchanged (only the entity-not-found
transport error is mapped to the distinguished kind). -/
theorem c4_entity_not_found_mapping (e : String) :
    (strIncludes e entityNotFoundMsg = true →
      bringToLifeAsVideoFull (Except.error e) [] true "" =
        some (VideoOutcome.failure apiKeyNotFoundMsg, 0)) ∧
    (strIncludes e entityNotFoundMsg = false →
      bringToLifeAsVideoFull (Except.error e) [] true "" =
        some (VideoOutcome.failure e, 0)) ∧
    apiKeyNotFoundMsg = "API key not found. Please re-select your API key and try again." := by
  refine ⟨fun h => ?_, fun h => ?_, rfl⟩
  · simp [bringToLifeAsVideoFull, mapVideoError, h]
  · simp [bringToLifeAsVideoFull, mapVideoError, h]

/-- C4 witness: the mapping applied at a concrete entity-not-found error
and at a concrete unrelated error. -/
theorem c4_entity_not_found_mapping_witness :
    bringToLifeAsVideoFull (Except.error "Requested entity was not found.") [] true "" =
      some (VideoOutcome.failure apiKeyNotFoundMsg, 0) ∧
    bringToLifeAsVideoFull (Except.error "quota exceeded") [] true "" =
      some (VideoOutcome.failure "quota exceeded", 0) :=
  ⟨(c4_entity_not_found_mapping "Requested entity was not found.").1 (by decide),
   (c4_entity_not_found_mapping "quota exceeded").2.1 (by decide)⟩

/-- The poll loop only ever exits on an operation whose `done` flag is
set. -/
lemma pollLoop_done (init : VideoOperation) (polls : List VideoOperation)
    (final : VideoOperation) (n : Nat)
    (h : pollLoop init polls = some (final, n)) : final.done = true := by
  induction polls generalizing init n with
  | nil =>
    rw [pollLoop] at h
    by_cases hd : init.done
    · simp [hd] at h
      simp [← h.1, hd]
    · simp [hd] at h
  | cons next rest ih =>
    rw [pollLoop] at h
    by_cases hd : init.done
    · simp [hd] at h
      simp [← h.1, hd]
    · simp [hd] at h
      rcases hrec : pollLoop next rest with _ | ⟨f, m⟩
      · rw [hrec] at h
        simp at h
      · rw [hrec] at h
        simp at h
        rcases h with ⟨h1, _⟩
        subst h1
        exact ih next m hrec

/-- C1: the video poller reaches DONE only when the job reports
completion and a download URI is present.  Whenever the loop exits, the
exiting operation has `done = true`; a successful return of
bringToLifeAsVideo carries exactly the download URI of that operation
(so there is never a success without a URI); and if the operation is
done without reporting FAILED but carries no download URI, the function
throws the contract-violation error "Video generation succeeded, but no
download link was found." instead of returning an empty success. -/
theorem c1_poller_done_requires_uri (init : VideoOperation) (polls : List VideoOperation)
    (fetchOk : Bool) (fetchStatusText : String) (final : VideoOperation) (n : Nat)
    (hpoll : pollLoop init polls = some (final, n)) :
    final.done = true ∧
    (∀ u m, bringToLifeAsVideoFull (Except.ok init) polls fetchOk fetchStatusText =
        some (VideoOutcome.success u, m) → final.downloadUri = some u) ∧
    (final.statusState ≠ some "FAILED" → final.downloadUri = none →
      bringToLifeAsVideoFull (Except.ok init) polls fetchOk fetchStatusText =
        some (VideoOutcome.failure noDownloadLinkMsg, n)) := by
  refine ⟨pollLoop_done init polls final n hpoll, ?_, ?_⟩
  · intro u m h
    rw [bringToLifeAsVideoFull, hpoll] at h
    simp at h
    rcases h with ⟨h1, _⟩
    rw [finishOp] at h1
    by_cases hf : final.statusState = some "FAILED"
    · simp [hf] at h1
    · simp [hf] at h1
      rcases hd : final.downloadUri with _ | uri
      · rw [hd] at h1
        simp at h1
      · rw [hd] at h1
        by_cases hok : fetchOk
        · simp [hok] at h1
          rw [h1]
        · simp [hok] at h1
  · intro hstate huri
    have hfin : finishOp final fetchOk fetchStatusText = VideoOutcome.failure noDownloadLinkMsg := by
      rw [finishOp]
      simp [hstate, huri]
    have hmap : mapVideoError noDownloadLinkMsg = noDownloadLinkMsg := by decide
    simp [bringToLifeAsVideoFull, hpoll, hfin, hmap]

/-- A done operation with no status and no download link, used to
exercise the contract-violation path. -/
def doneNoUriOp : VideoOperation := { done := true }

/-- C1 witness: a run whose single poll result is done with no URI ends
in the contract-violation error, after one delay. -/
theorem c1_poller_done_requires_uri_witness :
    bringToLifeAsVideoFull (Except.ok pendingOp) [doneNoUriOp] true "" =
      some (VideoOutcome.failure noDownloadLinkMsg, 1) :=
  (c1_poller_done_requires_uri pendingOp [doneNoUriOp] true "" doneNoUriOp 1
    (by decide)).2.2 (by decide) (by decide)

/-- C2: a Creation passed through persist then load is field-equal to the
original except `videoUrl`, which is absent after the round-trip; both
the durable-storage serialization (the persist effect) and the export
serialization (handleExport) omit the `videoUrl` key from the record
while preserving all other fields (the two serializations coincide). -/
theorem c2_persist_load_roundtrip (c : Creation) :
    (jsonToCreation (persistedJson c)).id = c.id ∧
    (jsonToCreation (persistedJson c)).name = c.name ∧
    (jsonToCreation (persistedJson c)).timestamp = c.timestamp ∧
    (jsonToCreation (persistedJson c)).type = c.type ∧
    (jsonToCreation (persistedJson c)).html = c.html ∧
    (jsonToCreation (persistedJson c)).originalImage = c.originalImage ∧
    (jsonToCreation (persistedJson c)).videoUrl = none ∧
    jlookup (persistedJson c) "videoUrl" = none ∧
    jlookup (exportedJson c) "videoUrl" = none ∧
    exportedJson c = persistedJson c := by
  obtain ⟨cid, cname, cts, cty, chtml, corig, cvid⟩ := c
  cases chtml <;> cases corig <;>
    simp [jsonToCreation, persistedJson, exportedJson, creationToJson, optField,
      jlookup, jlookupStr, jlookupNum, jlookupTag]

/-- C5: every execution of handleGenerate and handleRegenerateVideo,
whether the generation call returns a value or throws, holds
`isGenerating = true` while the call is awaited and restores
`isGenerating = false` in the state it leaves behind (the `finally`
path). -/
theorem c5_generating_flag_cleanup (st : AppState) (promptText : String)
    (file : Option FileInput) (mode : GenerationMode)
    (originalCreation : Creation) (outcome : Except String String)
    (freshId : String) (now : Nat) :
    (handleGenerate st promptText file mode outcome freshId now).1.isGenerating = true ∧
    (handleGenerate st promptText file mode outcome freshId now).2.isGenerating = false ∧
    (handleRegenerateVideo st promptText originalCreation outcome freshId now).1.isGenerating = true ∧
    (handleRegenerateVideo st promptText originalCreation outcome freshId now).2.isGenerating = false := by
  cases outcome with
  | error e =>
    simp [handleGenerate, handleRegenerateVideo]
  | ok result =>
    by_cases hr : result = "" <;>
      simp [handleGenerate, handleRegenerateVideo, hr]

/-- C7: with the button enabled (not generating, not disabled), an app-mode
click with no staged file is rejected before `onGenerate` — and hence
before any network call — for every prompt; a video-mode click with an
empty prompt but a staged file proceeds with exactly those arguments; and
a video-mode click is rejected precisely when the trimmed prompt is empty
and no file is staged. -/
theorem c7_mode_validation (prompt : String) (f : FileInput) (fileOpt : Option FileInput) :
    handleGenerateClick false false CreationType.app prompt none = none ∧
    handleGenerateClick false false CreationType.video "" (some f) =
      some ("", some f, CreationType.video) ∧
    (handleGenerateClick false false CreationType.video prompt fileOpt = none ↔
      (jsTrim prompt = "" ∧ fileOpt = none)) := by
  refine ⟨rfl, rfl, ?_⟩
  cases fileOpt with
  | none =>
    by_cases hp : jsTrim prompt = ""
    · simp [handleGenerateClick, hp]
    · simp [handleGenerateClick, hp]
  | some f' =>
    simp [handleGenerateClick]

/-- C7 witness: the validation decided at the concrete scenario inputs of
the spec, via the general theorem. -/
theorem c7_mode_validation_witness :
    handleGenerateClick false false CreationType.app "landing page" none = none ∧
    handleGenerateClick false false CreationType.video ""
        (some { fname := "photo.png", base64 := "aGk=", mime := "image/png" }) =
      some ("", some { fname := "photo.png", base64 := "aGk=", mime := "image/png" },
        CreationType.video) ∧
    handleGenerateClick false false CreationType.video "" none = none :=
  ⟨(c7_mode_validation "landing page"
      { fname := "photo.png", base64 := "aGk=", mime := "image/png" } none).1,
   (c7_mode_validation "landing page"
      { fname := "photo.png", base64 := "aGk=", mime := "image/png" } none).2.1,
   (c7_mode_validation ""
      { fname := "photo.png", base64 := "aGk=", mime := "image/png" } none).2.2.mpr
     (by decide)⟩

/-- C6: handleImportFile rejects (alert, no state change) every payload
whose `name` is missing or empty, whose `type` is missing, or which has
neither a truthy `html` nor a truthy `videoUrl`; an accepted payload
without an id receives the fresh id; and an accepted payload whose id
already occurs in the history leaves the history unchanged (no second
entry). -/
theorem c6_import_validation (p : ImportPayload) (freshId : String) (now : Nat)
    (st : AppState) :
    ((truthy p.name = false ∨ p.type = none ∨
        (truthy p.html = false ∧ truthy p.videoUrl = false)) →
      handleImportFile (some p) freshId now st = (st, false)) ∧
    (importGuard p = true → p.id = none →
      (importedCreation p freshId now).id = freshId) ∧
    (importGuard p = true →
      (∃ c ∈ st.history, c.id = (importedCreation p freshId now).id) →
      (handleImportFile (some p) freshId now st).1.history = st.history) := by
  refine ⟨fun h => ?_, fun _ hid => ?_, fun hg hex => ?_⟩
  · have hguard : importGuard p = false := by
      rw [importGuard]
      rcases h with h | h | ⟨h1, h2⟩
      · simp [h]
      · simp [h]
      · simp [h1, h2]
    simp [handleImportFile, hguard]
  · simp [importedCreation, hid]
  · have hany : st.history.any (fun c => decide (c.id = (importedCreation p freshId now).id)) = true := by
      rw [List.any_eq_true]
      rcases hex with ⟨c, hc, hcid⟩
      exact ⟨c, hc, by simp [hcid]⟩
    simp [handleImportFile, hg, hany]

/-- Payloads and state used to witness the import claim: one lacking a
name, one duplicate-id import, one without an id. -/
def importNoName : ImportPayload := { html := some "<p>hi</p>" }

def importDup : ImportPayload :=
  { id := some "dup", name := some "n", type := some CreationType.app, html := some "<p>x</p>" }

def importNoId : ImportPayload :=
  { name := some "n", type := some CreationType.app, html := some "<p>x</p>" }

def dupCreation : Creation :=
  { id := "dup", name := "old", timestamp := 0, type := CreationType.app }

def importState : AppState := { history := [dupCreation] }

/-- C6 witness: the three conjuncts applied at concrete payloads — a
payload lacking a name is rejected without touching the state, an
id-less accepted payload gets the fresh id, and importing a duplicate id
leaves the history as it was. -/
theorem c6_import_validation_witness :
    handleImportFile (some importNoName) "fresh" 5 importState = (importState, false) ∧
    (importedCreation importNoId "fresh" 5).id = "fresh" ∧
    (handleImportFile (some importDup) "fresh" 5 importState).1.history =
      importState.history :=
  ⟨(c6_import_validation importNoName "fresh" 5 importState).1 (Or.inl (by decide)),
   (c6_import_validation importNoId "fresh" 5 importState).2.1 (by decide) rfl,
   (c6_import_validation importDup "fresh" 5 importState).2.2 (by decide)
     ⟨dupCreation, by decide, by decide⟩⟩

/-- Example creations used to exhibit the bootstrap behaviour. -/
def exampleA : Creation :=
  { id := "a", name := "A", timestamp := 1, type := CreationType.app, html := some "<p>a</p>" }

def exampleB : Creation :=
  { id := "b", name := "B", timestamp := 2, type := CreationType.app, html := some "<p>b</p>" }

/-- C9 counterexample: the claim says an individual fetch failure among
the examples is skipped and the remaining successfully fetched examples
are still loaded.  But a rejected fetch rejects the whole `Promise.all`,
the surrounding catch fires, and the history stays empty — the two
successfully fetched examples are dropped: with storage absent and fetch
results [ok A, rejected, ok B], initHistory yields [] rather than the
non-empty [A, B]. -/
theorem c9_bootstrap_counterexample :
    initHistory none [FetchResult.ok exampleA, FetchResult.rejected, FetchResult.ok exampleB] = [] ∧
    ([exampleA, exampleB] : List Creation) ≠ [] := by
  decide

/-- C9 (amended): on startup, when stored history is absent, fails to
parse, or parses to an empty list, initHistory falls back to fetching the
fixed set of three example URLs.  Fetches that complete with a non-ok
response are skipped (the remaining successfully fetched examples are
still loaded), but if any fetch rejects, the whole example load is
abandoned by the surrounding catch and the history stays empty (the
failure is never fatal to startup itself); when the stored history is
non-empty, no fallback happens. -/
theorem c9_bootstrap_fallback (saved : Option (Except Unit (List Creation)))
    (fetches : List FetchResult) :
    exampleUrls.length = 3 ∧
    ((saved = none ∨ saved = some (Except.error ()) ∨ saved = some (Except.ok [])) →
      (fetches.any fetchRejected = false →
        initHistory saved fetches = fetches.filterMap fetchValue) ∧
      (fetches.any fetchRejected = true → initHistory saved fetches = [])) ∧
    (∀ l : List Creation, l ≠ [] → initHistory (some (Except.ok l)) fetches = l) := by
  refine ⟨by decide, fun hsaved => ⟨fun hrej => ?_, fun hrej => ?_⟩, fun l hl => ?_⟩
  · rcases hsaved with h | h | h <;> subst h <;> simp [initHistory, hrej]
  · rcases hsaved with h | h | h <;> subst h <;> simp [initHistory, hrej]
  · simp [initHistory, List.length_pos.mpr hl]

/-- C9 witness: the amended behaviour at concrete inputs — no stored
history and fetch results [ok A, notOk, ok B] loads exactly [A, B] (the
non-ok fetch is skipped), and a non-empty stored history suppresses the
fallback. -/
theorem c9_bootstrap_fallback_witness :
    initHistory none [FetchResult.ok exampleA, FetchResult.notOk, FetchResult.ok exampleB] =
      [exampleA, exampleB] ∧
    initHistory (some (Except.ok [exampleA])) [FetchResult.rejected] = [exampleA] := by
  refine ⟨?_, ?_⟩
  · have h := (c9_bootstrap_fallback none
      [FetchResult.ok exampleA, FetchResult.notOk, FetchResult.ok exampleB]).2.1
      (Or.inl rfl) |>.1 (by decide)
    simpa using h
  · exact (c9_bootstrap_fallback (some (Except.ok [exampleA]))
      [FetchResult.rejected]).2.2 [exampleA] (by decide)

/-- C3 counterexample: the claim says that for every response containing a
leading fence marker the returned html never contains that marker.  But
the replace only strips the single leading occurrence: the response
"```html\nA ```html B" starts with the marker, yet the stripped result
"A ```html B" still contains "```html". -/
theorem c3_fence_counterexample :
    ("```html".data <+: "```html\nA ```html B".data) ∧
    strIncludes (stripFences "```html\nA ```html B") "```html" = true := by
  decide

/-- C3 (amended): bringToLife strips a leading and/or trailing code-fence
wrapper if present and tolerates its absence — a text with neither a
leading nor a trailing fence is returned unchanged, the result is always
an infix of the input (so no fence is ever added), and a response wrapped
as "```html" + whitespace + body + "```" (body not itself starting with
whitespace or a fence) is returned as exactly the body.  Only the single
leading marker occurrence is removed: occurrences of the marker further
inside the text are preserved (see the counterexample). -/
theorem c3_fence_stripping :
    (∀ s : String, ¬ ("```".data <+: s.data) → ¬ ("```".data <:+ s.data) →
      stripFences s = s) ∧
    (∀ s : String, (stripFences s).data <:+: s.data) ∧
    (∀ ws body : List Char, (∀ c ∈ ws, isJsWs c = true) →
      body.dropWhile isJsWs = body →
      ¬ ("```".data <+: body ++ "```".data) →
      stripFences (String.mk ("```html".data ++ ws ++ body ++ "```".data)) = String.mk body) := by
  refine ⟨fun s h1 h2 => ?_, fun s => ?_, fun ws body hws hbody hfence => ?_⟩
  · have hh : ¬ ("```html".data <+: s.data) := fun hc =>
      h1 ( List.IsPrefix.trans (by decide) hc)
    simp [stripFences, stripLeadingHtmlFence, stripLeadingFence, stripTrailingFence,
      hh, h1, h2]
  · have step1 : (stripLeadingHtmlFence s).data <:+ s.data := by
      rw [stripLeadingHtmlFence]
      split
      · exact List.IsSuffix.trans ( List.dropWhile_suffix _) ( List.drop_suffix _ _)
      · exact List.suffix_rfl
    have step2 : (stripLeadingFence (stripLeadingHtmlFence s)).data <:+
        (stripLeadingHtmlFence s).data := by
      rw [stripLeadingFence]
      split
      · exact List.IsSuffix.trans ( List.dropWhile_suffix _) ( List.drop_suffix _ _)
      · exact List.suffix_rfl
    have step3 : (stripFences s).data <+:
        (stripLeadingFence (stripLeadingHtmlFence s)).data := by
      rw [stripFences, stripTrailingFence]
      split
      · exact List.take_prefix _ _
      · exact List.prefix_rfl
    exact List.IsInfix.trans ( List.IsPrefix.isInfix step3)
      ( List.IsSuffix.isInfix ( List.IsSuffix.trans step2 step1))
  · have hwsnil : ws.dropWhile isJsWs = [] := by
      rw [List.dropWhile_eq_nil_iff]
      intro c hc
      exact hws c hc
    have e0 : stripLeadingHtmlFence (String.mk ("```html".data ++ ws ++ body ++ "```".data))
        = String.mk ((("```html".data ++ ws ++ body ++ "```".data).drop
            "```html".data.length).dropWhile isJsWs) := by
      rw [stripLeadingHtmlFence]
      split
      · rfl
      · next h =>
        exact absurd ( List.prefix_append _ _) h
    have hlist : (("```html".data ++ ws ++ body ++ "```".data).drop
        "```html".data.length).dropWhile isJsWs = body ++ "```".data := by
      rw [List.append_assoc, List.append_assoc]
      rw [ List.drop_left, List.dropWhile_append, hwsnil]
      simp only [List.isEmpty_nil, if_true]
      cases body with
      | nil =>
        simp at hfence
      | cons c0 t =>
        have hc0 : isJsWs c0 = false := by
          have h := List.dropWhile_eq_self_iff.mp hbody (by simp)
          simpa using h
        rw [List.cons_append, List.dropWhile_cons, hc0]
        simp
    have e1 : stripLeadingHtmlFence (String.mk ("```html".data ++ ws ++ body ++ "```".data))
        = String.mk (body ++ "```".data) :=
      e0.trans (congrArg String.mk hlist)
    have e2 : stripLeadingFence (String.mk (body ++ "```".data))
        = String.mk (body ++ "```".data) := by
      rw [stripLeadingFence]
      split
      · next h =>
        exact absurd h hfence
      · rfl
    have e3 : stripTrailingFence (String.mk (body ++ "```".data)) = String.mk body := by
      rw [stripTrailingFence]
      split
      · refine congrArg String.mk ?_
        show (body ++ "```".data).take ((body ++ "```".data).length - "```".data.length) = body
        have hlen2 : (body ++ "```".data).length - "```".data.length = body.length := by
          simp
        rw [hlen2, List.take_left]
      · next h =>
        exact absurd ( List.suffix_append _ _) h
    rw [stripFences, e1, e2, e3]

/-- C3 witness: the amended behaviour at concrete inputs — a standard
fenced response is unwrapped to exactly its body, and an unfenced
response is returned unchanged. -/
theorem c3_fence_stripping_witness :
    stripFences "```html\n<!DOCTYPE html><p>hi</p>```" = "<!DOCTYPE html><p>hi</p>" ∧
    stripFences "<p>x</p>" = "<p>x</p>" := by
  constructor
  · have h := c3_fence_stripping.2.2 "\n".data "<!DOCTYPE html><p>hi</p>".data
      (by decide) (by decide) (by decide)
    simpa using h
  · exact c3_fence_stripping.1 "<p>x</p>" (by decide) (by decide)
